import Mathlib

/-!
Shallow embedding of the client-side query lifecycle logic of
`src/static/app.js` (travel-planner chat client), together with theorems
settling the spec claims about it.

Modeling conventions:
* Nullable JS string values (`null`/`undefined` vs a string) are `Option String`;
  the empty string and `none` are falsy, every other string is truthy.
* The DOM transcript (`chatContainer`) is a list of `(role, content)` pairs;
  markdown rendering is treated as the identity on text content (presentation
  is out of scope per the spec), so `textContent` of a message is its content.
* Network calls are parametrized by an explicit environment describing the
  response the event loop delivers (`none` models a thrown network error).
* Modeled WebSocket messages carry string-or-absent fields; JSON payloads with
  non-string or literal-null fields are outside the modeled domain.
-/

namespace TravelPlanner

/-- JavaScript truthiness of a nullable string value (`null`/`undefined` is
`none`): `null` and the empty string are falsy, any other string is truthy. -/
def jsTruthy : Option String → Bool
  | none => false
  | some s => s != ""

/-- JS `String.prototype.trim`: removes leading and trailing whitespace
characters (modeled with `Char.isWhitespace`), defined structurally on the
character list so that it evaluates by kernel reduction. -/
def jsTrim (s : String) : String :=
  String.mk
    (((s.data.dropWhile Char.isWhitespace).reverse.dropWhile
        Char.isWhitespace).reverse)

/-- The JS strict inequality `data.query_id !== activeQueryId`, where the
message field is a string or absent (`undefined`) and the active id is a string
or `null`: on this modeled domain the comparison is false exactly when both are
present and equal strings. -/
def strictNe : Option String → Option String → Bool
  | some a, some b => a != b
  | _, _ => true

/-- Display model of `memoryPanel.innerHTML`: the initial markup, the
empty-state paragraph, the limited-mode paragraph, the reset confirmation, or
the grouped projection built by `updateMemoryPanel` (a group list is empty
exactly when the corresponding section div is not appended). -/
inductive MemoryPanel
  | initialHtml
  | emptyState
  | unavailable
  | resetDone
  | groups (locations : List String) (pois : List String) (plans : List String)
      (queryCount : Nat)
  deriving DecidableEq

/-- One entry of `memory.current_locations` (only the rendered field). -/
structure LocationInfo where
  address : String
  deriving DecidableEq

/-- One entry of `memory.current_pois`. -/
structure Poi where
  name : String
  address : String
  deriving DecidableEq

/-- One entry of `memory.current_plans`: the backend serializes the numeric
distance (meters) and duration (seconds) as strings. -/
structure PlanInfo where
  distance : String
  duration : String
  deriving DecidableEq

/-- The backend memory snapshot consumed by `updateMemoryPanel`; mappings keep
the `Object.entries` enumeration order as association lists. -/
structure MemorySnapshot where
  query_count : Nat
  current_locations : List (String × LocationInfo)
  current_pois : List Poi
  current_plans : List (String × PlanInfo)
  deriving DecidableEq

/-- Longest leading run of decimal digits of a string. -/
def leadingDigits (s : String) : List Char :=
  s.data.takeWhile Char.isDigit

/-- Numeric value of a list of decimal digits. -/
def digitsToNat (l : List Char) : Nat :=
  l.foldl (fun n c => 10 * n + (c.toNat - 48)) 0

/-- JS `parseInt` / `parseFloat` restricted to the modeled domain of
nonnegative decimal-integer contents (what the backend emits for meters and
seconds): the value of the longest leading digit run, `none` for `NaN` when
no leading digit exists.  Signs, fractions, exponents and leading whitespace
are outside the modeled domain. -/
def jsParseNat (s : String) : Option Nat :=
  match leadingDigits s with
  | [] => none
  | l => some (digitsToNat l)

/-- Rounding of `d / 100` to the nearest integer with ties toward the larger
value, the ECMAScript `toFixed` rule applied to the exact rational `d / 1000`
rounded to one decimal and scaled to tenths.  Binary floating-point artifacts
on representational ties are outside the modeled domain. -/
def planKmTenths (d : Nat) : Nat := (d + 50) / 100

/-- Displayed minutes for `s` seconds: `Math.floor(s / 60)`. -/
def planMinutes (s : Nat) : Nat := s / 60

/-- Rendering of a tenths value `t` as the JS string `(t / 10).toFixed(1)`. -/
def toFixed1 (t : Nat) : String :=
  toString (t / 10) ++ "." ++ toString (t % 10)

/-- Text of one route-plan list item (app.js lines 441-446), including the JS
`NaN` fallback when a field does not parse. -/
def planItemText (route : String) (p : PlanInfo) : String :=
  let km := match jsParseNat p.distance with
    | some d => toFixed1 (planKmTenths d)
    | none => "NaN"
  let mn := match jsParseNat p.duration with
    | some s => toString (planMinutes s)
    | none => "NaN"
  route ++ ": " ++ km ++ "公里，" ++ mn ++ "分钟"

/-- Text of one location list item (app.js line 399). -/
def locationItemText (name : String) (info : LocationInfo) : String :=
  name ++ ": " ++ info.address

/-- Text of one point-of-interest list item (app.js line 421). -/
def poiItemText (poi : Poi) : String :=
  poi.name ++ ": " ++ poi.address

/-- The memory projection `updateMemoryPanel` (app.js lines 376-458): the
empty state when `query_count === 0`, otherwise the grouped display with the
points of interest capped at three entries. -/
def updateMemoryPanel (memory : MemorySnapshot) : MemoryPanel :=
  if memory.query_count = 0 then
    MemoryPanel.emptyState
  else
    MemoryPanel.groups
      (memory.current_locations.map (fun e => locationItemText e.1 e.2))
      ((memory.current_pois.take 3).map poiItemText)
      (memory.current_plans.map (fun e => planItemText e.1 e.2))
      memory.query_count

/-- The mutable client state of app.js: the module globals (`activeQueryId`,
`websocket`, `serverLimitedMode`) and the DOM pieces the core logic reads or
writes (input field, processing indicator, transcript, status panel, memory
panel, memory modal, the two memory buttons). -/
structure AppState where
  activeQueryId : Option String
  wsPresent : Bool
  inputValue : String
  processingShown : Bool
  processingText : String
  transcript : List (String × String)
  serverLimitedMode : Bool
  resetMemoryBtnDisabled : Bool
  viewMemoryBtnDisabled : Bool
  statusWarning : Option String
  memoryPanel : MemoryPanel
  memoryModal : Option MemorySnapshot
  deriving DecidableEq

/-- The state at page load, before any handler has run. -/
def initialState : AppState :=
  { activeQueryId := none
    wsPresent := false
    inputValue := ""
    processingShown := false
    processingText := ""
    transcript := []
    serverLimitedMode := false
    resetMemoryBtnDisabled := false
    viewMemoryBtnDisabled := false
    statusWarning := none
    memoryPanel := MemoryPanel.initialHtml
    memoryModal := none }

/-- The helper `addMessage` (app.js lines 322-337): appends a message to the
transcript. -/
def addMessage (st : AppState) (role content : String) : AppState :=
  { st with transcript := st.transcript ++ [(role, content)] }

/-- The helper `showError` (app.js lines 340-342). -/
def showError (st : AppState) (message : String) : AppState :=
  addMessage st "system" ("❌ 错误：" ++ message)

/-- The helper `showProcessingStatus` (app.js lines 345-351). -/
def showProcessingStatus (st : AppState) (b : Bool) : AppState :=
  { st with processingShown := b }

/-- The status-to-phrase table of `updateProcessingText` (app.js lines
354-373); any unrecognized or absent status keeps the default text. -/
def statusPhaseText : Option String → String
  | some "queued" => "查询已排队，等待处理..."
  | some "processing" => "正在分析并处理您的问题..."
  | some "completed" => "处理完成，获取结果..."
  | some "failed" => "处理失败"
  | _ => "正在处理您的问题..."

/-- The helper `updateProcessingText` (app.js lines 354-373). -/
def updateProcessingText (st : AppState) (status : Option String) : AppState :=
  { st with processingText := statusPhaseText status }

/-- The helper `getLastUserMessage` (app.js lines 256-264): trimmed text
content of the last user-role message, `null` when there is none. -/
def getLastUserMessage (st : AppState) : Option String :=
  match (st.transcript.filter (fun m => m.1 == "user")).getLast? with
  | some m => some (jsTrim m.2)
  | none => none

/-- The trailing hint appended to every limited-mode transcript warning. -/
def limitedModeNotice : String :=
  "\n\n您仍然可以尝试发送查询，但部分功能可能无法正常工作。如果持续出现问题，请重启服务器。"

/-- The helper `handleLimitedMode` (app.js lines 461-481): sets the
process-wide limited flag, shows the warning in the status panel, appends one
system warning to the transcript, disables both memory buttons and replaces
the memory panel with the unavailable notice. -/
def handleLimitedMode (st : AppState) (message : String) : AppState :=
  let st := { st with serverLimitedMode := true, statusWarning := some message }
  let st := addMessage st "system" ("⚠️ " ++ message ++ limitedModeNotice)
  { st with resetMemoryBtnDisabled := true
            viewMemoryBtnDisabled := true
            memoryPanel := MemoryPanel.unavailable }

/-- A modeled WebSocket progress message as parsed from `event.data`; each
field is a string or absent. -/
structure WsData where
  query_id : Option String
  error : Option String
  status : Option String
  result : Option String
  deriving DecidableEq

/-- The `websocket.onmessage` handler (app.js lines 165-192).  The argument
`queryId` is the id captured by the `connectWebSocket` closure.  The second
component records the call `fetchQueryResult(queryId)` made on completion;
the fetch itself is modeled by `fetchQueryResult` below. -/
def wsOnMessage (queryId : String) (data : WsData) (st : AppState) :
    AppState × Option String :=
  if jsTruthy data.error then
    let st := showError st (data.error.getD "")
    let st := showProcessingStatus st false
    ({ st with activeQueryId := none }, none)
  else if strictNe data.query_id st.activeQueryId then
    (st, none)
  else
    let st := updateProcessingText st data.status
    if data.status == some "completed" && jsTruthy data.result then
      (st, some queryId)
    else if data.status == some "failed" then
      let st := showError st "查询处理失败"
      let st := showProcessingStatus st false
      ({ st with activeQueryId := none }, none)
    else
      (st, none)

/-- The `websocket.onerror` handler (app.js lines 194-199). -/
def wsOnError (st : AppState) : AppState :=
  { showProcessingStatus (showError st "WebSocket连接错误") false with
      activeQueryId := none }

/-- The helper `closeWebSocketConnection` (app.js lines 114-127): drops the
socket if present, then resets a truthy active query id to `null`. -/
def closeWebSocketConnection (st : AppState) : AppState :=
  let st := if st.wsPresent then { st with wsPresent := false } else st
  if jsTruthy st.activeQueryId then { st with activeQueryId := none } else st

/-- The state effects of `connectWebSocket` (app.js lines 130-204): tear down
any existing connection, record the new active id, create the socket.  The
connect-timeout guard and handler dynamics are modeled by `ChannelState` and
`chanStep` below. -/
def connectWebSocket (st : AppState) (queryId : String) : AppState :=
  let st := closeWebSocketConnection st
  { st with activeQueryId := some queryId, wsPresent := true }

/-- Response delivered for POST /query. -/
structure QueryResp where
  ok : Bool
  status : Nat
  query_id : String
  detail : Option String
  deriving DecidableEq

/-- Environment of one `sendMessage` run; `none` models a thrown network
error. -/
structure SubmitEnv where
  resp : Option QueryResp
  deriving DecidableEq

/-- The submit handler `sendMessage` (app.js lines 66-111).  The second
component records whether a new WebSocket channel was created. -/
def sendMessage (env : SubmitEnv) (st : AppState) : AppState × Bool :=
  let query := jsTrim st.inputValue
  if query == "" || jsTruthy st.activeQueryId then
    (st, false)
  else
    let st := closeWebSocketConnection st
    let st := addMessage st "user" query
    let st := { st with inputValue := "" }
    let st := showProcessingStatus st true
    match env.resp with
    | none =>
        (showProcessingStatus
          (showError st "无法连接到服务器，请检查服务是否正常运行") false, false)
    | some r =>
        if r.ok then
          let st := { st with activeQueryId := some r.query_id }
          (connectWebSocket st r.query_id, true)
        else if r.status == 503 then
          (showProcessingStatus
            (handleLimitedMode st "服务未完全初始化，请重启服务器后再试") false, false)
        else
          let detailText := if jsTruthy r.detail then r.detail.getD "" else "未知错误"
          (showProcessingStatus
            (showError st ("查询失败: " ++ detailText)) false, false)

/-- Response delivered for GET /query/id/status. -/
structure StatusResp where
  ok : Bool
  query : String
  deriving DecidableEq

/-- Response delivered for GET /query/id/result. -/
structure ResultResp where
  ok : Bool
  final_answer : Option String
  detail : String
  deriving DecidableEq

/-- Environment of one `fetchQueryResult` run; a `none` response models a
thrown network error at that step.  The memory field feeds the `fetchMemory`
side effect: `some` is a 2xx response carrying a snapshot, `none` covers both
a non-2xx response and a throw (neither changes the panel). -/
structure ResultEnv where
  statusResp : Option StatusResp
  resultResp : Option ResultResp
  memoryResp : Option MemorySnapshot
  deriving DecidableEq

/-- The helper `fetchMemory` (app.js lines 267-278). -/
def fetchMemory (env : Option MemorySnapshot) (st : AppState) : AppState :=
  match env with
  | some m => { st with memoryPanel := updateMemoryPanel m }
  | none => st

/-- The consistency-violation warning of `fetchQueryResult` (app.js line
220). -/
def consistencyErrorMsg : String :=
  "查询与最后发送的消息不匹配，可能存在混淆。请重试您的问题。"

/-- The generic retrieval error shown by the catch block of
`fetchQueryResult` (app.js line 248). -/
def genericFetchErrorMsg : String := "获取结果时出错"

/-- The finally block of `fetchQueryResult` (app.js lines 249-252). -/
def fetchFinally (st : AppState) : AppState :=
  { showProcessingStatus st false with activeQueryId := none }

/-- The steps of `fetchQueryResult` once the consistency check has passed or
been skipped (app.js lines 227-242 together with the catch branch for a throw
at the result request): request the result, render a truthy final answer and
refresh the memory panel, or surface the failure detail.  The Boolean records
that GET /query/id/result was requested. -/
def fetchResultStep (env : ResultEnv) (st : AppState) : AppState × Bool :=
  match env.resultResp with
  | none => (showError st genericFetchErrorMsg, true)
  | some r =>
      if r.ok then
        if jsTruthy r.final_answer then
          (fetchMemory env.memoryResp
            (addMessage st "assistant" (r.final_answer.getD "")), true)
        else
          (st, true)
      else
        (showError st ("获取结果失败: " ++ r.detail), true)

/-- The try/catch part of `fetchQueryResult` (app.js lines 208-248): the
status check, the transcript consistency check, and the handoff to
`fetchResultStep`; every exit of this body then runs the finally block. -/
def fetchQueryBody (queryId : String) (env : ResultEnv) (st : AppState) :
    AppState × Bool :=
  match env.statusResp with
  | none => (showError st genericFetchErrorMsg, false)
  | some sr =>
      if sr.ok then
        let mismatch := match getLastUserMessage st with
          | some m => sr.query != m
          | none => false
        if mismatch then
          let st := showError st consistencyErrorMsg
          let st := showProcessingStatus st false
          let st := { st with activeQueryId := none }
          (st, false)
        else
          fetchResultStep env st
      else
        (showError st "无法验证查询状态", false)

/-- The result fetcher `fetchQueryResult` (app.js lines 207-253): the body
followed unconditionally by the finally block.  The second component records
whether GET /query/id/result was requested. -/
def fetchQueryResult (queryId : String) (env : ResultEnv) (st : AppState) :
    AppState × Bool :=
  let p := fetchQueryBody queryId env st
  (fetchFinally p.1, p.2)

/-- The app-level effects of the connect-timeout callback body (app.js lines
151-156). -/
def wsTimeoutApp (st : AppState) : AppState :=
  { showProcessingStatus (showError st "WebSocket连接超时，请刷新页面重试") false with
      activeQueryId := none }

/-- State of one freshly created channel: the app state plus the socket
reference, its open flag, the timeout guard bookkeeping, and counters for
close calls and timeout error events. -/
structure ChannelState where
  app : AppState
  wsPresent : Bool
  wsOpen : Bool
  timeoutCleared : Bool
  timeoutFired : Bool
  closeCalls : Nat
  errorEvents : Nat
  deriving DecidableEq

/-- Events a channel can observe: the link reaching the OPEN state (running
`onopen`), or the 10 s connect timeout elapsing. -/
inductive ChanEvent
  | openLink
  | timeoutElapse
  deriving DecidableEq

/-- The channel state right after `connectWebSocket` created the socket and
armed the 10 s connect-timeout guard (app.js lines 146-158). -/
def initChannel (app : AppState) : ChannelState :=
  { app := app
    wsPresent := true
    wsOpen := false
    timeoutCleared := false
    timeoutFired := false
    closeCalls := 0
    errorEvents := 0 }

/-- The body of the `setTimeout` callback (app.js lines 149-158): when the
socket still exists and is not open, close it, drop the reference, raise the
timeout error and reset the session. -/
def timeoutBody (c : ChannelState) : ChannelState :=
  if c.wsPresent && !c.wsOpen then
    { c with app := wsTimeoutApp c.app
             wsPresent := false
             closeCalls := c.closeCalls + 1
             errorEvents := c.errorEvents + 1 }
  else c

/-- One channel event under JS timer semantics: a cleared timeout never runs
its callback, an uncleared timeout runs it at most once, and `onopen` (app.js
lines 160-163) clears the guard. -/
def chanStep (c : ChannelState) : ChanEvent → ChannelState
  | ChanEvent.openLink =>
      { c with wsOpen := true, timeoutCleared := true }
  | ChanEvent.timeoutElapse =>
      if c.timeoutCleared || c.timeoutFired then c
      else timeoutBody { c with timeoutFired := true }

/-- A sequence of channel events applied in order. -/
def runChannel (c : ChannelState) (evs : List ChanEvent) : ChannelState :=
  evs.foldl chanStep c

/-- Response delivered for the startup GET /memory probe. -/
structure MemoryCheckResp where
  status : Nat
  ok : Bool
  memory : MemorySnapshot
  deriving DecidableEq

/-- Environment of the DOMContentLoaded startup flow; `none` models a thrown
network error at the corresponding request. -/
structure InitEnv where
  health : Option Bool
  memoryCheck : Option MemoryCheckResp
  deriving DecidableEq

/-- The limited-mode message used when /memory reports 500 or 503 at startup
(app.js line 34). -/
def limitedMsgMcp : String := "MCP客户端未初始化，部分功能可能不可用"

/-- The limited-mode message used when the startup /memory probe throws
(app.js line 42). -/
def limitedMsgUnavailable : String := "记忆服务不可用，部分功能受限"

/-- The DOMContentLoaded startup handler (app.js lines 21-50): health check,
then the memory-service availability probe. -/
def initLoad (env : InitEnv) (st : AppState) : AppState :=
  match env.health with
  | none => showError st "无法连接到服务器"
  | some healthOk =>
      if healthOk then
        match env.memoryCheck with
        | none => handleLimitedMode st limitedMsgUnavailable
        | some mr =>
            if mr.status == 500 || mr.status == 503 then
              handleLimitedMode st limitedMsgMcp
            else if mr.ok then
              { st with memoryPanel := updateMemoryPanel mr.memory }
            else
              st
      else
        showError st "API服务不可用"

/-- Environment of one `resetMemory` run: the confirm-dialog outcome and the
POST /memory/reset response (`none` models a throw, otherwise ok flag and
failure detail). -/
structure ResetEnv where
  confirmed : Bool
  resp : Option (Bool × String)
  deriving DecidableEq

/-- The `resetMemory` handler (app.js lines 281-303). -/
def resetMemory (env : ResetEnv) (st : AppState) : AppState :=
  if !env.confirmed then
    st
  else
    match env.resp with
    | none => showError st "重置记忆时出错"
    | some r =>
        if r.1 then
          addMessage { st with memoryPanel := MemoryPanel.resetDone }
            "system" "系统记忆已重置"
        else
          showError st ("重置记忆失败: " ++ r.2)

/-- The `viewFullMemory` handler (app.js lines 306-319): outer `none` models a
throw, `some none` a non-2xx response (no effect), `some (some m)` a snapshot
rendered into the modal. -/
def viewFullMemory (env : Option (Option MemorySnapshot)) (st : AppState) :
    AppState :=
  match env with
  | none => showError st "获取完整记忆时出错"
  | some none => st
  | some (some m) => { st with memoryModal := some m }

/-- Every modeled event handler of app.js, with its delivered environment:
the page-session step alphabet used to state session-wide invariants. -/
inductive Action
  | load (env : InitEnv)
  | submit (env : SubmitEnv)
  | wsMessage (queryId : String) (data : WsData)
  | wsErr
  | wsTimeout
  | fetchResult (queryId : String) (env : ResultEnv)
  | memRefresh (env : Option MemorySnapshot)
  | memReset (env : ResetEnv)
  | memView (env : Option (Option MemorySnapshot))

/-- Application of one handler to the app state. -/
def applyAction (st : AppState) : Action → AppState
  | Action.load env => initLoad env st
  | Action.submit env => (sendMessage env st).1
  | Action.wsMessage queryId data => (wsOnMessage queryId data st).1
  | Action.wsErr => wsOnError st
  | Action.wsTimeout => wsTimeoutApp st
  | Action.fetchResult queryId env => (fetchQueryResult queryId env st).1
  | Action.memRefresh env => fetchMemory env st
  | Action.memReset env => resetMemory env st
  | Action.memView env => viewFullMemory env st

/-! Basic frame lemmas about the UI helpers. -/

@[simp]
theorem addMessage_activeQueryId (st : AppState) (r c : String) :
    (addMessage st r c).activeQueryId = st.activeQueryId := rfl

@[simp]
theorem addMessage_transcript (st : AppState) (r c : String) :
    (addMessage st r c).transcript = st.transcript ++ [(r, c)] := rfl

@[simp]
theorem addMessage_limited (st : AppState) (r c : String) :
    (addMessage st r c).serverLimitedMode = st.serverLimitedMode := rfl

@[simp]
theorem showError_limited (st : AppState) (m : String) :
    (showError st m).serverLimitedMode = st.serverLimitedMode := rfl

@[simp]
theorem showProcessingStatus_limited (st : AppState) (b : Bool) :
    (showProcessingStatus st b).serverLimitedMode = st.serverLimitedMode := rfl

@[simp]
theorem updateProcessingText_limited (st : AppState) (s : Option String) :
    (updateProcessingText st s).serverLimitedMode = st.serverLimitedMode := rfl

@[simp]
theorem handleLimitedMode_limited (st : AppState) (m : String) :
    (handleLimitedMode st m).serverLimitedMode = true := rfl

@[simp]
theorem fetchFinally_activeQueryId (st : AppState) :
    (fetchFinally st).activeQueryId = none := rfl

@[simp]
theorem fetchFinally_processingShown (st : AppState) :
    (fetchFinally st).processingShown = false := rfl

@[simp]
theorem fetchFinally_limited (st : AppState) :
    (fetchFinally st).serverLimitedMode = st.serverLimitedMode := rfl

@[simp]
theorem fetchFinally_transcript (st : AppState) :
    (fetchFinally st).transcript = st.transcript := rfl

@[simp]
theorem closeWebSocketConnection_limited (st : AppState) :
    (closeWebSocketConnection st).serverLimitedMode = st.serverLimitedMode := by
  simp only [closeWebSocketConnection]
  split <;> (first | rfl | (split <;> rfl))

@[simp]
theorem connectWebSocket_limited (st : AppState) (q : String) :
    (connectWebSocket st q).serverLimitedMode = st.serverLimitedMode := by
  unfold connectWebSocket
  simp

@[simp]
theorem fetchMemory_limited (env : Option MemorySnapshot) (st : AppState) :
    (fetchMemory env st).serverLimitedMode = st.serverLimitedMode := by
  unfold fetchMemory
  split <;> rfl

/-- C4.  Every run of the result fetcher ends in the finally block, so the
session is idle afterwards: the active query id is `null` and the processing
indicator is hidden, for every outcome the environment can deliver. -/
theorem fetch_result_always_returns_idle (queryId : String) (env : ResultEnv)
    (st : AppState) :
    (fetchQueryResult queryId env st).1.activeQueryId = none ∧
      (fetchQueryResult queryId env st).1.processingShown = false :=
  ⟨rfl, rfl⟩

/-- C8.  A memory snapshot with a zero query count projects to the empty-state
panel, whatever the other fields hold: the zero check precedes every section
renderer. -/
theorem memory_projection_empty_on_zero_count (m : MemorySnapshot)
    (h : m.query_count = 0) :
    updateMemoryPanel m = MemoryPanel.emptyState := by
  simp [updateMemoryPanel, h]

/-- Witness for C8 at a snapshot with a zero count but non-empty locations,
points of interest and plans. -/
theorem memory_projection_empty_on_zero_count_witness :
    (MemorySnapshot.mk 0 [("家", LocationInfo.mk "福田区")]
        [Poi.mk "世界之窗" "南山区"] [("深圳-珠海", PlanInfo.mk "12345" "905")]).query_count
        = 0 ∧
      updateMemoryPanel
        (MemorySnapshot.mk 0 [("家", LocationInfo.mk "福田区")]
          [Poi.mk "世界之窗" "南山区"] [("深圳-珠海", PlanInfo.mk "12345" "905")]) =
        MemoryPanel.emptyState :=
  ⟨rfl, memory_projection_empty_on_zero_count _ rfl⟩

/-- C9.  The displayed route-plan numbers: the kilometre tenths shown for a
distance of `d` meters are the nearest one-decimal rounding of `d / 1000`
(ties toward the larger value, the `toFixed` rule), the minutes shown for `s`
seconds are the floor of `s / 60`, and the concrete entry with distance
"12345" and duration "905" renders as 12.3 km and 15 min. -/
theorem plan_distance_duration_conversion (d s : Nat) :
    (100 * planKmTenths d ≤ d + 50 ∧ d ≤ 100 * planKmTenths d + 49) ∧
      (60 * planMinutes s ≤ s ∧ s < 60 * (planMinutes s + 1)) ∧
      planItemText "深圳-珠海" (PlanInfo.mk "12345" "905") =
        "深圳-珠海: 12.3公里，15分钟" := by
  refine ⟨⟨?_, ?_⟩, ⟨?_, ?_⟩, by decide⟩
  · unfold planKmTenths
    have h := Nat.div_add_mod (d + 50) 100
    omega
  · unfold planKmTenths
    have h := Nat.div_add_mod (d + 50) 100
    have h2 : (d + 50) % 100 < 100 := Nat.mod_lt _ (by omega)
    omega
  · unfold planMinutes
    have h := Nat.div_add_mod s 60
    omega
  · unfold planMinutes
    have h := Nat.div_add_mod s 60
    have h2 : s % 60 < 60 := Nat.mod_lt _ (by omega)
    omega

/-- C1 counterexample.  A message whose query id differs from the active one
but which carries an error field is not discarded: the handler processes the
error branch first, so the active query id is cleared and an error message is
appended — a state mutation and a UI event, refuting the claim that every
mismatched message is side-effect free. -/
theorem mismatched_error_message_has_side_effects :
    strictNe (WsData.mk (some "q2") (some "boom") none none).query_id
        (AppState.mk (some "q1") true "" true "" [] false false false none
          MemoryPanel.initialHtml none).activeQueryId = true ∧
      (wsOnMessage "q1" (WsData.mk (some "q2") (some "boom") none none)
          (AppState.mk (some "q1") true "" true "" [] false false false none
            MemoryPanel.initialHtml none)).1.activeQueryId = none ∧
      (wsOnMessage "q1" (WsData.mk (some "q2") (some "boom") none none)
          (AppState.mk (some "q1") true "" true "" [] false false false none
            MemoryPanel.initialHtml none)).1.transcript =
        [("system", "❌ 错误：boom")] ∧
      (wsOnMessage "q1" (WsData.mk (some "q2") (some "boom") none none)
          (AppState.mk (some "q1") true "" true "" [] false false false none
            MemoryPanel.initialHtml none)).1.processingShown = false := by
  decide

/-- C1 amended.  Every inbound message that carries no (truthy) error field
and whose query id differs from the active query id is discarded without side
effects: the handler returns the state unchanged and performs no UI event and
no result fetch.  Messages with an error field are instead handled by the
error branch regardless of their query id. -/
theorem mismatched_message_discarded_without_side_effects (queryId : String)
    (data : WsData) (st : AppState) (he : jsTruthy data.error = false)
    (hq : strictNe data.query_id st.activeQueryId = true) :
    wsOnMessage queryId data st = (st, none) := by
  simp [wsOnMessage, he, hq]

/-- Witness for the amended C1 at a concrete mismatched message. -/
theorem mismatched_message_discarded_witness :
    wsOnMessage "q1" (WsData.mk (some "q2") none (some "completed") (some "r"))
        (AppState.mk (some "q1") true "" true "" [] false false false none
          MemoryPanel.initialHtml none) =
      (AppState.mk (some "q1") true "" true "" [] false false false none
        MemoryPanel.initialHtml none, none) :=
  mismatched_message_discarded_without_side_effects _ _ _ rfl rfl

/-- C2 counterexample.  The submit guard tests JS truthiness, not nullity: in
a state whose active query id is the non-null empty string, a submission with
non-empty input is not a no-op — it opens a channel and replaces the active
query id. -/
theorem submit_with_empty_string_active_id_not_noop :
    (AppState.mk (some "") false "你好" false "" [] false false false none
        MemoryPanel.initialHtml none).activeQueryId ≠ none ∧
      (sendMessage (SubmitEnv.mk (some (QueryResp.mk true 200 "q9" none)))
          (AppState.mk (some "") false "你好" false "" [] false false false none
            MemoryPanel.initialHtml none)).2 = true ∧
      (sendMessage (SubmitEnv.mk (some (QueryResp.mk true 200 "q9" none)))
          (AppState.mk (some "") false "你好" false "" [] false false false none
            MemoryPanel.initialHtml none)).1.activeQueryId ≠
        (AppState.mk (some "") false "你好" false "" [] false false false none
          MemoryPanel.initialHtml none).activeQueryId := by
  decide

/-- C2 amended.  A call to `sendMessage` while the input text trims to the
empty string, or while the active query id is truthy (non-null and
non-empty — every backend-issued id), is a complete no-op: the state is
unchanged (active query id included), no channel is opened, no message is
appended and no request is sent; hence with non-empty backend ids no two
queries are ever concurrently active. -/
theorem submit_is_noop_while_active (env : SubmitEnv) (st : AppState)
    (h : jsTrim st.inputValue = "" ∨ jsTruthy st.activeQueryId = true) :
    sendMessage env st = (st, false) := by
  rcases h with h | h <;> simp [sendMessage, h]

/-- Witness for the amended C2: submitting while a query with a non-empty id
is active changes nothing. -/
theorem submit_is_noop_while_active_witness :
    sendMessage (SubmitEnv.mk (some (QueryResp.mk true 200 "q9" none)))
        (AppState.mk (some "busy") true "hello" true "" [] false false false
          none MemoryPanel.initialHtml none) =
      (AppState.mk (some "busy") true "hello" true "" [] false false false
        none MemoryPanel.initialHtml none, false) :=
  submit_is_noop_while_active _ _ (Or.inr rfl)

/-- C6 counterexample.  A matching message with status `completed` but no
`result` field does not hand off to the result fetcher: the handler requires
`data.result` to be truthy as well, so no fetch is initiated. -/
theorem completed_without_result_no_handoff :
    strictNe (WsData.mk (some "q1") none (some "completed") none).query_id
        (AppState.mk (some "q1") true "" true "" [] false false false none
          MemoryPanel.initialHtml none).activeQueryId = false ∧
      (WsData.mk (some "q1") none (some "completed") none).status =
        some "completed" ∧
      (wsOnMessage "q1" (WsData.mk (some "q1") none (some "completed") none)
          (AppState.mk (some "q1") true "" true "" [] false false false none
            MemoryPanel.initialHtml none)).2 = none := by
  decide

/-- C6 amended.  For an error-free message matching the active query id: if
its status is `completed` and it carries a truthy `result` field, a result
fetch is initiated for the closure query id; if its status is `failed`, an
error is reported and the session resets to idle (active id `null`,
processing hidden) with no fetch. -/
theorem completed_failed_dispatch (queryId : String) (data : WsData)
    (st : AppState) (he : jsTruthy data.error = false)
    (hq : strictNe data.query_id st.activeQueryId = false) :
    (data.status = some "completed" → jsTruthy data.result = true →
      (wsOnMessage queryId data st).2 = some queryId) ∧
    (data.status = some "failed" →
      (wsOnMessage queryId data st).1.transcript =
          st.transcript ++ [("system", "❌ 错误：查询处理失败")] ∧
        (wsOnMessage queryId data st).1.activeQueryId = none ∧
        (wsOnMessage queryId data st).1.processingShown = false ∧
        (wsOnMessage queryId data st).2 = none) := by
  constructor
  · intro hs hr
    simp [wsOnMessage, he, hq, hs, hr]
  · intro hs
    simp [wsOnMessage, he, hq, hs, showError, addMessage, showProcessingStatus,
      updateProcessingText]

/-- Witness for the amended C6 at a concrete completed message carrying a
result. -/
theorem completed_failed_dispatch_witness :
    (wsOnMessage "q1" (WsData.mk (some "q1") none (some "completed") (some "r"))
        (AppState.mk (some "q1") true "" true "" [] false false false none
          MemoryPanel.initialHtml none)).2 = some "q1" :=
  (completed_failed_dispatch "q1"
      (WsData.mk (some "q1") none (some "completed") (some "r"))
      (AppState.mk (some "q1") true "" true "" [] false false false none
        MemoryPanel.initialHtml none) rfl rfl).1 rfl rfl

/-! String helper lemmas used to separate the distinct user-facing error
messages of the result fetcher. -/

theorem data_append (a b : String) : (a ++ b).data = a.data ++ b.data := by
  cases a
  cases b
  rfl

theorem fetchFail_ne_consistency (d : String) :
    ("获取结果失败: " ++ d : String) ≠ consistencyErrorMsg := by
  intro h
  have hd : ("获取结果失败: " : String).data ++ d.data = consistencyErrorMsg.data := by
    have h2 := congrArg String.data h
    rwa [data_append] at h2
  have hp : ("获取结果失败: " : String).data <+: consistencyErrorMsg.data :=
    ⟨d.data, hd⟩
  rw [List.prefix_iff_eq_take] at hp
  exact absurd hp (by decide)

theorem string_append_left_cancel {a x y : String} (h : a ++ x = a ++ y) :
    x = y := by
  have h2 := congrArg String.data h
  rw [data_append, data_append] at h2
  have h3 := List.append_cancel_left h2
  have h4 : String.mk x.data = String.mk y.data := congrArg String.mk h3
  cases x
  cases y
  exact h4

/-- Frame lemma: refreshing the memory panel leaves the transcript alone. -/
@[simp]
theorem fetchMemory_transcript (env : Option MemorySnapshot) (st : AppState) :
    (fetchMemory env st).transcript = st.transcript := by
  unfold fetchMemory
  split <;> rfl

/-- The result step always issues the GET result request, whatever the
response environment. -/
theorem fetchResultStep_requested (env : ResultEnv) (st : AppState) :
    (fetchResultStep env st).2 = true := by
  simp only [fetchResultStep]
  split
  · rfl
  · split
    · split <;> rfl
    · rfl

/-- C3.  When the status check succeeds but the stored query text differs
from the most recent user message in the transcript, the fetch aborts before
requesting the answer: the GET result request is not issued, exactly the
consistency warning (a message distinct from the generic retrieval error) is
appended, no assistant message is rendered, and the session resets to idle. -/
theorem consistency_mismatch_aborts_fetch (queryId : String) (env : ResultEnv)
    (st : AppState) (sr : StatusResp) (m : String)
    (h1 : env.statusResp = some sr) (h2 : sr.ok = true)
    (h3 : getLastUserMessage st = some m) (h4 : sr.query ≠ m) :
    (fetchQueryResult queryId env st).2 = false ∧
      (fetchQueryResult queryId env st).1.transcript =
        st.transcript ++ [("system", "❌ 错误：" ++ consistencyErrorMsg)] ∧
      (fetchQueryResult queryId env st).1.activeQueryId = none ∧
      (fetchQueryResult queryId env st).1.processingShown = false ∧
      (fetchQueryResult queryId env st).1.transcript.filter
          (fun e => e.1 == "assistant") =
        st.transcript.filter (fun e => e.1 == "assistant") ∧
      consistencyErrorMsg ≠ genericFetchErrorMsg := by
  have hb : fetchQueryBody queryId env st =
      ({ showProcessingStatus (showError st consistencyErrorMsg) false with
          activeQueryId := none }, false) := by
    simp [fetchQueryBody, h1, h2, h3, h4]
  have ht : (fetchQueryResult queryId env st).1.transcript =
      st.transcript ++ [("system", "❌ 错误：" ++ consistencyErrorMsg)] := by
    simp [fetchQueryResult, hb, showError, showProcessingStatus, addMessage]
  refine ⟨?_, ht, rfl, rfl, ?_, by decide⟩
  · simp [fetchQueryResult, hb]
  · rw [ht, List.filter_append]
    simp

/-- Witness for C3 at the concrete mismatch scenario from the spec: stored
query "杭州景点" against last transcript entry "深圳到珠海怎么走". -/
theorem consistency_mismatch_aborts_fetch_witness :
    (fetchQueryResult "q1"
        (ResultEnv.mk (some (StatusResp.mk true "杭州景点")) none none)
        (AppState.mk (some "q1") true "" true ""
          [("user", "深圳到珠海怎么走")] false false false none
          MemoryPanel.initialHtml none)).2 = false :=
  (consistency_mismatch_aborts_fetch "q1"
      (ResultEnv.mk (some (StatusResp.mk true "杭州景点")) none none)
      (AppState.mk (some "q1") true "" true ""
        [("user", "深圳到珠海怎么走")] false false false none
        MemoryPanel.initialHtml none)
      (StatusResp.mk true "杭州景点") "深圳到珠海怎么走" rfl rfl (by decide)
      (by decide)).1

/-- C10.  When the transcript holds no user message, the consistency check is
skipped entirely: the run equals the direct post-check continuation, the GET
result request is issued, the outcome does not depend on the stored query
text the status check returned, and no consistency warning can appear. -/
theorem no_user_message_skips_consistency_check (queryId : String)
    (env : ResultEnv) (st : AppState) (sr : StatusResp)
    (h1 : env.statusResp = some sr) (h2 : sr.ok = true)
    (h3 : getLastUserMessage st = none) :
    (fetchQueryResult queryId env st).2 = true ∧
      fetchQueryResult queryId env st =
        (fetchFinally (fetchResultStep env st).1, (fetchResultStep env st).2) ∧
      (∀ q : String,
        fetchQueryResult queryId
            (ResultEnv.mk (some (StatusResp.mk sr.ok q)) env.resultResp
              env.memoryResp) st =
          fetchQueryResult queryId env st) ∧
      ∀ e ∈ (fetchQueryResult queryId env st).1.transcript,
        e ∈ st.transcript ∨ e ≠ ("system", "❌ 错误：" ++ consistencyErrorMsg) := by
  have hb : fetchQueryBody queryId env st = fetchResultStep env st := by
    simp [fetchQueryBody, h1, h2, h3]
  have hq : fetchQueryResult queryId env st =
      (fetchFinally (fetchResultStep env st).1, (fetchResultStep env st).2) := by
    simp [fetchQueryResult, hb]
  refine ⟨?_, hq, ?_, ?_⟩
  · rw [hq]
    exact fetchResultStep_requested env st
  · intro q
    have hs : fetchResultStep
        (ResultEnv.mk (some (StatusResp.mk true q)) env.resultResp
          env.memoryResp) st = fetchResultStep env st := by
      unfold fetchResultStep
      rfl
    have hb2 : fetchQueryBody queryId
        (ResultEnv.mk (some (StatusResp.mk true q)) env.resultResp
          env.memoryResp) st = fetchResultStep env st := by
      simp [fetchQueryBody, h3, hs]
    rw [h2]
    simp [fetchQueryResult, hb, hb2]
  · intro e he
    rw [hq] at he
    simp only [fetchFinally_transcript] at he
    have hstep : (fetchResultStep env st).1.transcript = st.transcript ∨
        (∃ a : String,
          (fetchResultStep env st).1.transcript =
            st.transcript ++ [("assistant", a)]) ∨
        (∃ d : String,
          (fetchResultStep env st).1.transcript =
            st.transcript ++ [("system", "❌ 错误：" ++ ("获取结果失败: " ++ d))] ∧
            ("获取结果失败: " ++ d : String) ≠ consistencyErrorMsg) ∨
        (fetchResultStep env st).1.transcript =
          st.transcript ++ [("system", "❌ 错误：" ++ genericFetchErrorMsg)] := by
      unfold fetchResultStep
      cases env.resultResp with
      | none =>
          exact Or.inr (Or.inr (Or.inr (by
            simp [showError, addMessage])))
      | some r =>
          by_cases hok : r.ok
          · by_cases hfa : jsTruthy r.final_answer
            · exact Or.inr (Or.inl ⟨r.final_answer.getD "", by
                simp [hok, hfa, addMessage]⟩)
            · left
              simp [hok, hfa]
          · exact Or.inr (Or.inr (Or.inl ⟨r.detail, by
              simp [hok, showError, addMessage], fetchFail_ne_consistency r.detail⟩))
    rcases hstep with hs | ⟨a, hs⟩ | ⟨d, hs, hne⟩ | hs
    · rw [hs] at he
      exact Or.inl he
    · rw [hs] at he
      rcases List.mem_append.mp he with h | h
      · exact Or.inl h
      · right
        intro hcontra
        rw [hcontra] at h
        simp at h
    · rw [hs] at he
      rcases List.mem_append.mp he with h | h
      · exact Or.inl h
      · right
        intro hcontra
        rw [hcontra] at h
        simp only [List.mem_singleton, Prod.mk.injEq] at h
        exact hne (string_append_left_cancel h.2.symm)
    · rw [hs] at he
      rcases List.mem_append.mp he with h | h
      · exact Or.inl h
      · right
        intro hcontra
        rw [hcontra] at h
        simp only [List.mem_singleton, Prod.mk.injEq] at h
        have hcg := string_append_left_cancel h.2
        exact absurd hcg (by decide)

/-- Witness for C10 on the empty startup transcript: whatever stored query
text the status check returns, the result request is issued directly. -/
theorem no_user_message_skips_consistency_check_witness :
    (fetchQueryResult "q1"
        (ResultEnv.mk (some (StatusResp.mk true "杭州景点")) none none)
        initialState).2 = true :=
  (no_user_message_skips_consistency_check "q1"
      (ResultEnv.mk (some (StatusResp.mk true "杭州景点")) none none)
      initialState (StatusResp.mk true "杭州景点") rfl rfl rfl).1

/-! Channel-timeout invariants for C5. -/

/-- Invariant after the connect timeout has fired on an unopened channel:
one error event, one close call, the socket dropped, the session reset. -/
def timedOutInv (c : ChannelState) : Prop :=
  c.timeoutFired = true ∧ c.errorEvents = 1 ∧ c.closeCalls = 1 ∧
    c.wsPresent = false ∧ c.app.activeQueryId = none ∧
    c.app.processingShown = false

/-- Invariant after the link opened in time: guard cleared, no error event,
no close call. -/
def openedInv (c : ChannelState) : Prop :=
  c.timeoutCleared = true ∧ c.errorEvents = 0 ∧ c.closeCalls = 0

theorem chanStep_timedOutInv (c : ChannelState) (e : ChanEvent)
    (h : timedOutInv c) : timedOutInv (chanStep c e) := by
  obtain ⟨h1, h2, h3, h4, h5, h6⟩ := h
  cases e with
  | openLink => exact ⟨h1, h2, h3, h4, h5, h6⟩
  | timeoutElapse =>
      have hc : chanStep c ChanEvent.timeoutElapse = c := by
        simp [chanStep, h1]
      rw [hc]
      exact ⟨h1, h2, h3, h4, h5, h6⟩

theorem chanStep_openedInv (c : ChannelState) (e : ChanEvent)
    (h : openedInv c) : openedInv (chanStep c e) := by
  obtain ⟨h1, h2, h3⟩ := h
  cases e with
  | openLink => exact ⟨rfl, h2, h3⟩
  | timeoutElapse =>
      have hc : chanStep c ChanEvent.timeoutElapse = c := by
        simp [chanStep, h1]
      rw [hc]
      exact ⟨h1, h2, h3⟩

theorem runChannel_timedOutInv (evs : List ChanEvent) :
    ∀ c : ChannelState, timedOutInv c → timedOutInv (runChannel c evs) := by
  induction evs with
  | nil => intro c h; exact h
  | cons e evs ih => intro c h; exact ih _ (chanStep_timedOutInv c e h)

theorem runChannel_openedInv (evs : List ChanEvent) :
    ∀ c : ChannelState, openedInv c → openedInv (runChannel c evs) := by
  induction evs with
  | nil => intro c h; exact h
  | cons e evs ih => intro c h; exact ih _ (chanStep_openedInv c e h)

/-- C5.  On a channel whose link has not opened when the 10 s guard elapses,
exactly one timeout error event fires and the socket is closed exactly once
(and stays so under any further events), after which the session is reset;
on a channel that opens before the guard elapses, the guard is cleared and no
timeout error or close ever happens, under any further events. -/
theorem connect_timeout_fires_exactly_once (app : AppState)
    (evs : List ChanEvent) :
    ((runChannel (initChannel app) (ChanEvent.timeoutElapse :: evs)).errorEvents
          = 1 ∧
        (runChannel (initChannel app)
            (ChanEvent.timeoutElapse :: evs)).closeCalls = 1 ∧
        (runChannel (initChannel app)
            (ChanEvent.timeoutElapse :: evs)).wsPresent = false ∧
        (runChannel (initChannel app)
            (ChanEvent.timeoutElapse :: evs)).app.activeQueryId = none ∧
        (runChannel (initChannel app)
            (ChanEvent.timeoutElapse :: evs)).app.processingShown = false) ∧
      ((runChannel (initChannel app)
            (ChanEvent.openLink :: evs)).timeoutCleared = true ∧
        (runChannel (initChannel app) (ChanEvent.openLink :: evs)).errorEvents
          = 0 ∧
        (runChannel (initChannel app) (ChanEvent.openLink :: evs)).closeCalls
          = 0) := by
  constructor
  · have h0 : timedOutInv (chanStep (initChannel app) ChanEvent.timeoutElapse) := by
      refine ⟨rfl, rfl, rfl, rfl, rfl, rfl⟩
    have h1 : timedOutInv (runChannel (initChannel app)
        (ChanEvent.timeoutElapse :: evs)) :=
      runChannel_timedOutInv evs _ h0
    exact ⟨h1.2.1, h1.2.2.1, h1.2.2.2.1, h1.2.2.2.2.1, h1.2.2.2.2.2⟩
  · have h0 : openedInv (chanStep (initChannel app) ChanEvent.openLink) := by
      refine ⟨rfl, rfl, rfl⟩
    exact runChannel_openedInv evs _ h0

/-! Limited-mode flag monotonicity for C7. -/

theorem initLoad_limited (env : InitEnv) (st : AppState)
    (h : st.serverLimitedMode = true) :
    (initLoad env st).serverLimitedMode = true := by
  simp only [initLoad]
  split
  · simpa using h
  · split
    · split
      · simp
      · split
        · simp
        · split
          · simpa using h
          · exact h
    · simpa using h

theorem sendMessage_limited (env : SubmitEnv) (st : AppState)
    (h : st.serverLimitedMode = true) :
    (sendMessage env st).1.serverLimitedMode = true := by
  simp only [sendMessage]
  split
  · exact h
  · split
    · simpa using h
    · split
      · simpa using h
      · split
        · simp
        · simpa using h

theorem wsOnMessage_limited (queryId : String) (data : WsData) (st : AppState)
    (h : st.serverLimitedMode = true) :
    (wsOnMessage queryId data st).1.serverLimitedMode = true := by
  simp only [wsOnMessage]
  split
  · simpa using h
  · split
    · exact h
    · split
      · simpa using h
      · split
        · simpa using h
        · simpa using h

theorem fetchResultStep_limited (env : ResultEnv) (st : AppState)
    (h : st.serverLimitedMode = true) :
    (fetchResultStep env st).1.serverLimitedMode = true := by
  simp only [fetchResultStep]
  split
  · simpa using h
  · split
    · split
      · simpa using h
      · exact h
    · simpa using h

theorem fetchQueryResult_limited (queryId : String) (env : ResultEnv)
    (st : AppState) (h : st.serverLimitedMode = true) :
    (fetchQueryResult queryId env st).1.serverLimitedMode = true := by
  have hb : (fetchQueryBody queryId env st).1.serverLimitedMode = true := by
    simp only [fetchQueryBody]
    split
    · simpa using h
    · split
      · split
        · simpa using h
        · exact fetchResultStep_limited env st h
      · simpa using h
  simpa [fetchQueryResult] using hb

theorem resetMemory_limited (env : ResetEnv) (st : AppState)
    (h : st.serverLimitedMode = true) :
    (resetMemory env st).serverLimitedMode = true := by
  simp only [resetMemory]
  split
  · exact h
  · split
    · simpa using h
    · split
      · simpa using h
      · simpa using h

theorem viewFullMemory_limited (env : Option (Option MemorySnapshot))
    (st : AppState) (h : st.serverLimitedMode = true) :
    (viewFullMemory env st).serverLimitedMode = true := by
  simp only [viewFullMemory]
  split
  · simpa using h
  · exact h
  · simpa using h

theorem applyAction_limited (st : AppState) (a : Action)
    (h : st.serverLimitedMode = true) :
    (applyAction st a).serverLimitedMode = true := by
  cases a with
  | load env => exact initLoad_limited env st h
  | submit env => exact sendMessage_limited env st h
  | wsMessage queryId data => exact wsOnMessage_limited queryId data st h
  | wsErr => simpa [applyAction, wsOnError] using h
  | wsTimeout => simpa [applyAction, wsTimeoutApp] using h
  | fetchResult queryId env => exact fetchQueryResult_limited queryId env st h
  | memRefresh env => simpa [applyAction] using h
  | memReset env => exact resetMemory_limited env st h
  | memView env => exact viewFullMemory_limited env st h

theorem foldl_applyAction_limited (acts : List Action) :
    ∀ s : AppState, s.serverLimitedMode = true →
      (acts.foldl applyAction s).serverLimitedMode = true := by
  induction acts with
  | nil => intro s h; exact h
  | cons a acts ih => intro s h; exact ih _ (applyAction_limited s a h)

/-- C7.  A startup /memory probe answering 500 or 503 puts the page into
limited mode: the capability flag is set, both memory buttons are disabled,
and exactly one warning message (the limited-mode warning) is appended to the
until-then-empty transcript; and no modeled handler ever clears the flag for
the rest of the page session. -/
theorem limited_mode_on_startup (env : InitEnv) (mr : MemoryCheckResp)
    (h1 : env.health = some true) (h2 : env.memoryCheck = some mr)
    (h3 : mr.status = 500 ∨ mr.status = 503) :
    (initLoad env initialState).serverLimitedMode = true ∧
      (initLoad env initialState).resetMemoryBtnDisabled = true ∧
      (initLoad env initialState).viewMemoryBtnDisabled = true ∧
      (initLoad env initialState).transcript =
        [("system", "⚠️ " ++ limitedMsgMcp ++ limitedModeNotice)] ∧
      ∀ (acts : List Action) (s : AppState), s.serverLimitedMode = true →
        (acts.foldl applyAction s).serverLimitedMode = true := by
  have hinit : initLoad env initialState =
      handleLimitedMode initialState limitedMsgMcp := by
    rcases h3 with h3 | h3 <;> simp [initLoad, h1, h2, h3]
  rw [hinit]
  exact ⟨rfl, rfl, rfl, rfl, foldl_applyAction_limited⟩

/-- Witness for C7 at a concrete 503 startup probe. -/
theorem limited_mode_on_startup_witness :
    (initLoad
        (InitEnv.mk (some true)
          (some (MemoryCheckResp.mk 503 false (MemorySnapshot.mk 0 [] [] []))))
        initialState).serverLimitedMode = true :=
  (limited_mode_on_startup
      (InitEnv.mk (some true)
        (some (MemoryCheckResp.mk 503 false (MemorySnapshot.mk 0 [] [] []))))
      (MemoryCheckResp.mk 503 false (MemorySnapshot.mk 0 [] [] [])) rfl rfl
      (Or.inr rfl)).1

end TravelPlanner
